import Mathlib

/-!
# TeddyAI: the conversation loop of `src/App.jsx`

A shallow embedding of the `App` component: the transcript (`messages`), the
`sendMessage` handler with its request to the completion endpoint and its
`try`/`catch`, and the inactivity timer installed by the third `useEffect`.

JavaScript values are embedded as `JsVal`; React state updates, the `fetch`
call and the `speak` call are recorded as an ordered list of `Effect`s which
`applyEffect` replays on the component `State`.
-/

namespace TeddyAI

/-! ## JavaScript values -/

/-- The JavaScript values the component handles: `undefined`, and what
`JSON.parse` can return. Numbers are the integer-valued ones (the code only
tests a number against `0`). -/
inductive JsVal where
  | undefined
  | null
  | bool (b : Bool)
  | num (n : Int)
  | str (s : String)
  | arr (xs : List JsVal)
  | obj (props : List (String × JsVal))

/-- An object literal: its own properties, in source order. -/
abbrev JsObject := List (String × JsVal)

/-- An exception value (`Error`, `TypeError`, `SyntaxError`, `DOMException`):
the handler reads only its `message`. -/
structure JsError where
  message : String

/-- Own-property lookup in a property list, `undefined` when the key is absent. -/
def lookupProp (k : String) : List (String × JsVal) → JsVal
  | [] => .undefined
  | (k', v) :: rest => if k' = k then v else lookupProp k rest

/-- The expression `o.k` for an object literal `o`. -/
def JsObject.get (o : JsObject) (k : String) : JsVal := lookupProp k o

/-- The `ToBoolean` conversion used by `||`, `&&` and `if`. -/
def truthy : JsVal → Bool
  | .undefined => false
  | .null => false
  | .bool b => b
  | .num n => n != 0
  | .str s => s != ""
  | .arr _ => true
  | .obj _ => true

/-- The number of UTF-16 code units of a string (`s.length`). -/
def utf16Length (s : String) : Nat :=
  (s.data.map fun c => if c.toNat < 65536 then 1 else 2).sum

/-- The expression `v.k` for the keys the component reads (`choices`, `length`,
`message`, `content`), none of which is inherited from a built-in prototype
except `length`, an own property of strings and arrays. Reading a property of
`undefined` or `null` throws a `TypeError`. -/
def getProp (v : JsVal) (k : String) : Except JsError JsVal :=
  match v with
  | .undefined => .error ⟨"Cannot read properties of undefined (reading '" ++ k ++ "')"⟩
  | .null => .error ⟨"Cannot read properties of null (reading '" ++ k ++ "')"⟩
  | .bool _ => .ok .undefined
  | .num _ => .ok .undefined
  | .str s => .ok (if k = "length" then .num (utf16Length s) else .undefined)
  | .arr xs => .ok (if k = "length" then .num xs.length else .undefined)
  | .obj props => .ok (lookupProp k props)

/-- The expression `v[0]`. For a string it is the one-character string at
index 0 (a lone code unit when the first character lies outside the BMP; the
component only goes on to read `.message` of it, which is `undefined`). -/
def getIndex0 (v : JsVal) : Except JsError JsVal :=
  match v with
  | .undefined => .error ⟨"Cannot read properties of undefined (reading '0')"⟩
  | .null => .error ⟨"Cannot read properties of null (reading '0')"⟩
  | .bool _ => .ok .undefined
  | .num _ => .ok .undefined
  | .str s => .ok (match s.data with
      | [] => .undefined
      | c :: _ => .str (String.singleton c))
  | .arr xs => .ok (match xs with
      | [] => .undefined
      | x :: _ => x)
  | .obj props => .ok (lookupProp "0" props)

/-- The comparison `v > 0`. For `undefined` it is `NaN > 0`, for `null` it is
`0 > 0`, for `true` it is `1 > 0`. For a string, array or object operand the
language first converts the operand to a number; that conversion is the
parameter `toNumberPos` (it says whether the converted operand exceeds `0`). -/
def gtZero (toNumberPos : JsVal → Bool) : JsVal → Bool
  | .undefined => false
  | .null => false
  | .bool b => b
  | .num n => decide (0 < n)
  | v => toNumberPos v

/-- The comparison `v === s` against a string literal `s`. -/
def strictEqStr (v : JsVal) (s : String) : Bool :=
  match v with
  | .str t => t == s
  | _ => false

/-- The characters `String.prototype.trim` strips: WhiteSpace and LineTerminator. -/
def isJsWhiteSpace (c : Char) : Bool :=
  let n := c.toNat
  n = 9 || n = 10 || n = 11 || n = 12 || n = 13 || n = 32 || n = 160 || n = 5760 ||
  (8192 ≤ n && n ≤ 8202) || n = 8232 || n = 8233 || n = 8239 || n = 8287 ||
  n = 12288 || n = 65279

/-- The method `s.trim()`. -/
def jsTrim (s : String) : String :=
  String.mk ((s.data.dropWhile isJsWhiteSpace).reverse.dropWhile isJsWhiteSpace).reverse

/-- The method `s.startsWith(p)`. -/
def jsStartsWith (s p : String) : Bool :=
  p.data.isPrefixOf s.data

/-! ## The component -/

/-- The constant `systemMessage` (lines 11-14). -/
def systemMessage : JsObject :=
  [("role", .str "system"),
   ("content", .str "You are a friendly teddy bear designed for toddlers. Your purpose is to provide educational insights, teach new things, sing songs, and engage in playful conversation. Keep your responses short, simple, and age-appropriate. If the toddler doesn't engage with you for a while, proactively ask them a question or suggest an activity.")]

/-- The constant `proactiveMessage` of the inactivity callback (lines 78-81). -/
def proactiveMessage : JsObject :=
  [("role", .str "assistant"),
   ("content", .str "Hi there! What's your favorite animal today? Or would you like to sing a song with me?")]

/-- The body handed to `JSON.stringify` for the POST (lines 116-119). -/
structure RequestBody where
  model : String
  messages : List JsObject

/-- What the component does to the outside, in program order. -/
inductive Effect where
  /-- The update `setMessages(prevMessages => [...prevMessages, m])`. -/
  | setMessages (m : JsObject)
  /-- The update `setInputText(s)`. -/
  | setInputText (s : String)
  /-- The update `setLastUserMessageTime(t)`. -/
  | setLastUserMessageTime (t : Int)
  /-- The call `fetch(url, {method: 'POST', headers, body})`. -/
  | fetch (body : RequestBody)
  /-- The call `window.speechSynthesis.speak(utterance)` for an utterance made
  from `text` (line 162). -/
  | speak (text : JsVal)

/-- A `Response`: its status, and what `response.text()` and `response.json()`
settle to (either may reject). -/
structure Response where
  status : Nat
  text : Except JsError String
  json : Except JsError JsVal

/-- The getter `response.ok`: the status is in the range 200-299. -/
def Response.ok (r : Response) : Bool :=
  decide (200 ≤ r.status) && decide (r.status ≤ 299)

/-- How the promise returned by `fetch` settles. -/
inductive FetchResult where
  | rejected (error : JsError)
  | resolved (response : Response)

/-- What the handler depends on in the browser it runs in: the numeric
conversion of `gtZero`, whether the constructor `SpeechSynthesisUtterance` is
defined, and whether `window.speechSynthesis` is. -/
structure Browser where
  toNumberPos : JsVal → Bool
  hasUtterance : Bool
  hasSpeechSynthesis : Bool

/-- The function `speak` (lines 159-163): the effects it performs and the
exception it throws, if any. Line 160 throws a `ReferenceError` where
`SpeechSynthesisUtterance` is not defined, line 162 a `TypeError` where
`window.speechSynthesis` is `undefined`. -/
def speak (env : Browser) (text : JsVal) : List Effect × Option JsError :=
  if !env.hasUtterance then
    ([], some ⟨"SpeechSynthesisUtterance is not defined"⟩)
  else if !env.hasSpeechSynthesis then
    ([], some ⟨"Cannot read properties of undefined (reading 'speak')"⟩)
  else
    ([.speak text], none)

/-- The callback of the `map` at lines 103-106. -/
def toApiMessage (m : JsObject) : JsObject :=
  [("role", .str (if strictEqStr (m.get "sender") "user" then "user" else "assistant")),
   ("content", m.get "text")]

/-- The condition `data.choices && data.choices.length > 0` (line 131). -/
def hasChoices (toNumberPos : JsVal → Bool) (data : JsVal) : Except JsError Bool := do
  let choices ← getProp data "choices"
  if truthy choices then
    let length ← getProp choices "length"
    pure (gtZero toNumberPos length)
  else
    pure false

/-- The expression `data.choices[0].message.content` (line 132). -/
def firstChoiceContent (data : JsVal) : Except JsError JsVal := do
  let choices ← getProp data "choices"
  let first ← getIndex0 choices
  let message ← getProp first "message"
  getProp message "content"

/-- The `try` block (lines 103-139): the effects it performs and the exception
it throws, if any. -/
def tryBlock (env : Browser) (messages : List JsObject) (userMessage : JsObject)
    (net : FetchResult) : List Effect × Option JsError :=
  let apiMessages := (messages ++ [userMessage]).map toApiMessage
  let request := Effect.fetch
    { model := "openchat/openchat-7b:free", messages := systemMessage :: apiMessages }
  match net with
  | .rejected error => ([request], some error)
  | .resolved response =>
    if !response.ok then
      match response.text with
      | .error error => ([request], some error)
      | .ok errorText =>
        ([request], some ⟨"OpenRouter API Error: " ++ toString response.status ++ " - " ++ errorText⟩)
    else
      match response.json with
      | .error error => ([request], some error)
      | .ok data =>
        match hasChoices env.toNumberPos data with
        | .error error => ([request], some error)
        | .ok true =>
          match firstChoiceContent data with
          | .error error => ([request], some error)
          | .ok content =>
            let aiMessage : JsObject := [("text", content), ("sender", .str "ai")]
            let spoken := speak env (aiMessage.get "text")
            ([request, .setMessages aiMessage] ++ spoken.1, spoken.2)
        | .ok false =>
          let errorMessage : JsObject :=
            [("text", .str "The AI didn't provide a response. Please try again."),
             ("sender", .str "ai")]
          ([request, .setMessages errorMessage], none)

/-- The `catch` block (lines 141-149). -/
def catchBlock (error : JsError) : List Effect × Option JsError :=
  let errorMessageText :=
    if jsStartsWith error.message "OpenRouter API Error" then error.message
    else "Failed to get a response from the AI. There might be an issue with the OpenRouter API. Please try again later."
  let errorMessage : JsObject := [("text", .str errorMessageText), ("sender", .str "ai")]
  ([.setMessages errorMessage], none)

/-- A finished call: what it did, and the exception it ended with, if any. -/
structure Completion where
  effects : List Effect
  raised : Option JsError

/-- The expression `voiceInput || inputText` (line 94), the parameter default
`voiceInput = null` applied. -/
def messageTextOf (voiceInput : JsVal) (inputText : String) : JsVal :=
  let voiceInput := match voiceInput with
    | .undefined => JsVal.null
    | v => v
  if truthy voiceInput then voiceInput else .str inputText

/-- The handler `sendMessage` (lines 93-151), run to completion. `messages` and
`inputText` are the values of the render the handler belongs to, `now` is what
`Date.now()` returns and `net` is how the request settles. -/
def sendMessage (env : Browser) (messages : List JsObject) (inputText : String)
    (voiceInput : JsVal) (now : Int) (net : FetchResult) : Completion :=
  match messageTextOf voiceInput inputText with
  | .str messageText =>
    if jsTrim messageText != "" then
      let userMessage : JsObject := [("text", .str messageText), ("sender", .str "user")]
      let before : List Effect :=
        [.setMessages userMessage, .setInputText "", .setLastUserMessageTime now]
      match tryBlock env messages userMessage net with
      | (done, none) => ⟨before ++ done, none⟩
      | (done, some error) =>
        let handled := catchBlock error
        ⟨before ++ done ++ handled.1, handled.2⟩
    else ⟨[], none⟩
  | _ => ⟨[], none⟩

/-! ## Component state and the inactivity timer -/

/-- The state of the component: the three `useState` cells the conversation
loop uses, and the pending `inactivityTimeout` timer (its due time), `none`
when no timer is pending. -/
structure State where
  messages : List JsObject
  inputText : String
  lastUserMessageTime : Int
  inactivityTimeout : Option Int

/-- Replay one effect on the state; `fetch` and `speak` leave it alone. -/
def applyEffect (st : State) : Effect → State
  | .setMessages m => { st with messages := st.messages ++ [m] }
  | .setInputText s => { st with inputText := s }
  | .setLastUserMessageTime t => { st with lastUserMessageTime := t }
  | .fetch _ => st
  | .speak _ => st

/-- Replay a list of effects in order. -/
def applyEffects (st : State) (effects : List Effect) : State :=
  effects.foldl applyEffect st

/-- The delay passed to `setTimeout` (line 84), and the bound of the test at line 77. -/
def IDLE_WINDOW : Int := 15000

/-- The callback handed to `setTimeout` (lines 76-84); `lastUserMessageTime` is
the value of the render that installed the timer, `now` is `Date.now()`. -/
def inactivityCallback (lastUserMessageTime now : Int) : List Effect :=
  if now - lastUserMessageTime > 15000 then [.setMessages proactiveMessage] else []

/-- The hook `useEffect(..., [lastUserMessageTime])` (lines 75-87) at a commit
from `old` to `new` made at time `now`: when the dependency is unchanged the
hook is skipped, otherwise its cleanup clears the pending timer and the effect
installs a new one, due `15000` ms later. -/
def commitInactivityEffect (now : Int) (old new : State) : State :=
  if new.lastUserMessageTime = old.lastUserMessageTime then new
  else { new with inactivityTimeout := some (now + 15000) }

/-- The first render and commit: `useState([])`, `useState('')`,
`useState(Date.now())` at time `t0`, and the inactivity hook run at `t1`. -/
def mount (t0 t1 : Int) : State :=
  { messages := [], inputText := "", lastUserMessageTime := t0,
    inactivityTimeout := some (t1 + 15000) }

/-- The two states of the Engagement Monitor. -/
inductive MonitorState where
  | Idle
  | Armed (due : Int)
  deriving DecidableEq

/-- The monitor state of a component state. -/
def State.monitor (st : State) : MonitorState :=
  match st.inactivityTimeout with
  | none => .Idle
  | some due => .Armed due

/-- What can happen to the mounted component. -/
inductive Event where
  /-- The handler `handleInputChange` with `e.target.value = value`. -/
  | input (value : String)
  /-- A click on the Send button at time `now`: the call `sendMessage()` of the
  current render, run to completion. -/
  | click (now : Int) (net : FetchResult)
  /-- The handler `onresult` of the speech recogniser at time `now`, `transcript`
  being the joined transcripts (lines 34-47), run to completion. -/
  | voice (transcript : String) (now : Int) (net : FetchResult)
  /-- The pending inactivity timer fires at time `now`. -/
  | timeout (now : Int)

/-- The effects an event performs in state `st`. The Send button calls the
`sendMessage` of the current render. The handler `onresult` is installed once,
by the hook `useEffect(..., [])` of lines 19-58, so the `sendMessage` it calls
is the one of the first render, whose `messages` is `[]` and whose `inputText`
is `''`. -/
def eventEffects (env : Browser) (st : State) : Event → List Effect
  | .input value => [.setInputText value]
  | .click now net =>
    (sendMessage env st.messages st.inputText .undefined now net).effects
  | .voice transcript now net =>
    .setInputText transcript ::
      (sendMessage env [] "" (.str transcript) now net).effects
  | .timeout now =>
    match st.inactivityTimeout with
    | none => []
    | some _ => inactivityCallback st.lastUserMessageTime now

/-- The time at which an event happens, when it reads the clock. -/
def Event.time : Event → Option Int
  | .input _ => none
  | .click now _ => some now
  | .voice _ now _ => some now
  | .timeout now => some now

/-- The timer that fired is no longer pending (a `setTimeout` timer fires once). -/
def consumeTimer (st : State) : Event → State
  | .timeout _ => { st with inactivityTimeout := none }
  | _ => st

/-- One event: the fired timer is consumed, the effects are replayed, and the
inactivity hook runs at the commit. -/
def step (env : Browser) (st : State) (ev : Event) : State :=
  let st1 := consumeTimer st ev
  let st2 := applyEffects st1 (eventEffects env st ev)
  commitInactivityEffect ((ev.time).getD 0) st1 st2

/-- A run of events from `st`. -/
def run (env : Browser) (st : State) (evs : List Event) : State :=
  evs.foldl (step env) st

/-- The requests a list of effects issues. -/
def requestsOf (effects : List Effect) : List RequestBody :=
  effects.filterMap fun
    | .fetch body => some body
    | _ => none

/-- The messages a list of effects appends to the transcript. -/
def appendedBy (effects : List Effect) : List JsObject :=
  effects.filterMap fun
    | .setMessages m => some m
    | _ => none

/-- The texts a list of effects hands to `speak`. -/
def spokenBy (effects : List Effect) : List JsVal :=
  effects.filterMap fun
    | .speak text => some text
    | _ => none

/-- The times a list of effects writes to `lastUserMessageTime`. -/
def timesSetBy (effects : List Effect) : List Int :=
  effects.filterMap fun
    | .setLastUserMessageTime t => some t
    | _ => none

/-- Whether a list of effects appends a message whose sender is `user`. -/
def appendsUserMessage (effects : List Effect) : Bool :=
  (appendedBy effects).any fun m => strictEqStr (m.get "sender") "user"

/-- The times of the events of a run, from `st`, that appended a message whose
sender is `user`, oldest first. -/
def userTurnTimes (env : Browser) : State → List Event → List Int
  | _, [] => []
  | st, ev :: rest =>
    (if appendsUserMessage (eventEffects env st ev) then [(ev.time).getD 0] else []) ++
      userTurnTimes env (step env st ev) rest

/-- The message `sendMessage` builds for the text `messageText` (line 97). -/
def userMessageOf (messageText : String) : JsObject :=
  [("text", .str messageText), ("sender", .str "user")]

/-- The request the `try` block issues for a transcript. -/
def requestFor (transcript : List JsObject) : RequestBody :=
  { model := "openchat/openchat-7b:free",
    messages := systemMessage :: transcript.map toApiMessage }

/-- The effects of the `try` block followed by those of the `catch` block when
the `try` block threw. -/
def guardedEffects (env : Browser) (messages : List JsObject)
    (userMessage : JsObject) (net : FetchResult) : List Effect :=
  (tryBlock env messages userMessage net).1 ++
    match (tryBlock env messages userMessage net).2 with
    | none => []
    | some error => (catchBlock error).1

/-- The message the `catch` block appends for the exception `error` (lines 143-147). -/
def caughtMessage (error : JsError) : JsObject :=
  [("text", .str (if jsStartsWith error.message "OpenRouter API Error" then error.message
      else "Failed to get a response from the AI. There might be an issue with the OpenRouter API. Please try again later.")),
   ("sender", .str "ai")]

/-- The message the `catch` block appends for an exception that is not the one
thrown at line 125. -/
def failureMessage : JsObject :=
  [("text", .str "Failed to get a response from the AI. There might be an issue with the OpenRouter API. Please try again later."),
   ("sender", .str "ai")]

/-- The message appended for a reply with the content `content` (line 132). -/
def aiMessageOf (content : JsVal) : JsObject :=
  [("text", content), ("sender", .str "ai")]

/-- The message appended when the reply has no choice (line 137). -/
def noResponseMessage : JsObject :=
  [("text", .str "The AI didn't provide a response. Please try again."),
   ("sender", .str "ai")]

/-- Speech synthesis is available: both `SpeechSynthesisUtterance` and
`window.speechSynthesis` are defined. -/
def Browser.canSpeak (env : Browser) : Bool :=
  env.hasUtterance && env.hasSpeechSynthesis

/-! ## Auxiliary facts -/

theorem requestsOf_append (a b : List Effect) :
    requestsOf (a ++ b) = requestsOf a ++ requestsOf b := by
  simp [requestsOf]

theorem appendedBy_append (a b : List Effect) :
    appendedBy (a ++ b) = appendedBy a ++ appendedBy b := by
  simp [appendedBy]

theorem spokenBy_append (a b : List Effect) :
    spokenBy (a ++ b) = spokenBy a ++ spokenBy b := by
  simp [spokenBy]

theorem timesSetBy_append (a b : List Effect) :
    timesSetBy (a ++ b) = timesSetBy a ++ timesSetBy b := by
  simp [timesSetBy]

/-- A call with a non-blank text performs the three state updates and then the
guarded request. -/
theorem sendMessage_effects_of_valid (env : Browser) (messages : List JsObject)
    (inputText : String) (voiceInput : JsVal) (now : Int) (net : FetchResult)
    (messageText : String) (htext : messageTextOf voiceInput inputText = .str messageText)
    (hvalid : jsTrim messageText ≠ "") :
    (sendMessage env messages inputText voiceInput now net).effects =
      [.setMessages (userMessageOf messageText), .setInputText "",
        .setLastUserMessageTime now] ++
      guardedEffects env messages (userMessageOf messageText) net := by
  unfold sendMessage guardedEffects
  rw [htext]
  simp only [bne_iff_ne, ne_eq, hvalid, not_false_eq_true, ↓reduceIte, userMessageOf]
  rcases h : tryBlock env messages
      [("text", JsVal.str messageText), ("sender", JsVal.str "user")] net with ⟨done, _ | error⟩
  · simp
  · simp

theorem toApiMessage_role (m : JsObject) :
    (toApiMessage m).get "role" =
      .str (if strictEqStr (m.get "sender") "user" then "user" else "assistant") := by
  simp [toApiMessage, JsObject.get, lookupProp]

theorem toApiMessage_content (m : JsObject) :
    (toApiMessage m).get "content" = m.get "text" := by
  simp [toApiMessage, JsObject.get, lookupProp]

theorem strictEqStr_iff (v : JsVal) (s : String) : strictEqStr v s = true ↔ v = .str s := by
  cases v <;> simp [strictEqStr]

theorem systemMessage_role : systemMessage.get "role" = .str "system" := by
  simp [systemMessage, JsObject.get, lookupProp]

/-- The role of a forwarded entry is `user` or `assistant`, `user` exactly
for a `user` sender, and never `system`. -/
theorem toApiMessage_role_cases (m : JsObject) :
    ((toApiMessage m).get "role" = .str "user" ∨
        (toApiMessage m).get "role" = .str "assistant") ∧
      ((toApiMessage m).get "role" = .str "user" ↔ m.get "sender" = .str "user") ∧
      (toApiMessage m).get "role" ≠ .str "system" := by
  rw [toApiMessage_role]
  by_cases h : strictEqStr (m.get "sender") "user" = true
  · have h2 := (strictEqStr_iff _ _).1 h
    rw [if_pos h]
    simp [h2]
  · have h2 : ¬ (m.get "sender" = .str "user") := fun e => h ((strictEqStr_iff _ _).2 e)
    rw [if_neg h]
    simp [h2]

/-- The function `speak` either speaks the text, where speech synthesis is
available, or throws an exception for which the `catch` block appends
`failureMessage`. -/
theorem speak_cases (env : Browser) (text : JsVal) :
    (env.canSpeak = true ∧ speak env text = ([.speak text], none)) ∨
    (env.canSpeak = false ∧
      ∃ error, speak env text = ([], some error) ∧ caughtMessage error = failureMessage) := by
  unfold speak Browser.canSpeak
  cases h1 : env.hasUtterance <;> cases h2 : env.hasSpeechSynthesis
  · right
    exact ⟨rfl, _, rfl, rfl⟩
  · right
    exact ⟨rfl, _, rfl, rfl⟩
  · right
    exact ⟨rfl, _, rfl, rfl⟩
  · left
    exact ⟨rfl, rfl⟩

/-- The catch block appends `caughtMessage` and does not throw. -/
theorem catchBlock_eq (error : JsError) :
    catchBlock error = ([.setMessages (caughtMessage error)], none) := rfl

/-- The four ways the guarded part can go: an exception before anything was
appended; a reply appended and spoken; a reply appended, `speak` throwing and
the `catch` block appending `failureMessage` after it; the no-response message. -/
theorem guardedEffects_cases (env : Browser) (messages : List JsObject)
    (userMessage : JsObject) (net : FetchResult) :
    (∃ error, guardedEffects env messages userMessage net =
        [.fetch (requestFor (messages ++ [userMessage])),
         .setMessages (caughtMessage error)]) ∨
    (∃ content, env.canSpeak = true ∧ guardedEffects env messages userMessage net =
        [.fetch (requestFor (messages ++ [userMessage])),
         .setMessages (aiMessageOf content), .speak content]) ∨
    (∃ content, env.canSpeak = false ∧ guardedEffects env messages userMessage net =
        [.fetch (requestFor (messages ++ [userMessage])),
         .setMessages (aiMessageOf content), .setMessages failureMessage]) ∨
    guardedEffects env messages userMessage net =
        [.fetch (requestFor (messages ++ [userMessage])),
         .setMessages noResponseMessage] := by
  have hthrow : ∀ (r : List Effect × Option JsError) (error : JsError),
      r = ([.fetch (requestFor (messages ++ [userMessage]))], some error) →
      (r.1 ++ match r.2 with
        | none => []
        | some error => (catchBlock error).1) =
      [.fetch (requestFor (messages ++ [userMessage])), .setMessages (caughtMessage error)] := by
    intro r error hr
    subst hr
    rfl
  unfold guardedEffects
  cases net with
  | rejected error => exact Or.inl ⟨error, hthrow _ error rfl⟩
  | resolved response =>
    cases hok : response.ok with
    | false =>
      cases htext : response.text with
      | error error =>
        refine Or.inl ⟨error, hthrow _ error ?_⟩
        simp [tryBlock, hok, htext, requestFor]
      | ok errorText =>
        refine Or.inl ⟨⟨"OpenRouter API Error: " ++ toString response.status ++ " - " ++ errorText⟩,
          hthrow _ _ ?_⟩
        simp only [tryBlock, hok, htext, requestFor, Bool.not_false, ↓reduceIte]
    | true =>
      cases hjson : response.json with
      | error error =>
        refine Or.inl ⟨error, hthrow _ error ?_⟩
        simp [tryBlock, hok, hjson, requestFor]
      | ok data =>
        cases htest : hasChoices env.toNumberPos data with
        | error error =>
          refine Or.inl ⟨error, hthrow _ error ?_⟩
          simp [tryBlock, hok, hjson, htest, requestFor]
        | ok b =>
          cases b with
          | false =>
            refine Or.inr (Or.inr (Or.inr ?_))
            simp [tryBlock, hok, hjson, htest, requestFor, noResponseMessage]
          | true =>
            cases hcontent : firstChoiceContent data with
            | error error =>
              refine Or.inl ⟨error, hthrow _ error ?_⟩
              simp [tryBlock, hok, hjson, htest, hcontent, requestFor]
            | ok content =>
              rcases speak_cases env content with ⟨hcan, hsp⟩ | ⟨hcan, error, hsp, hmsg⟩
              · refine Or.inr (Or.inl ⟨content, hcan, ?_⟩)
                simp [tryBlock, hok, hjson, htest, hcontent, requestFor, aiMessageOf,
                  JsObject.get, lookupProp, hsp]
              · refine Or.inr (Or.inr (Or.inl ⟨content, hcan, ?_⟩))
                simp [tryBlock, hok, hjson, htest, hcontent, requestFor, aiMessageOf,
                  JsObject.get, lookupProp, hsp, catchBlock_eq, hmsg]

/-- The guarded part issues exactly one request, for the transcript extended
by the new user message. -/
theorem guardedEffects_requests (env : Browser) (messages : List JsObject)
    (userMessage : JsObject) (net : FetchResult) :
    requestsOf (guardedEffects env messages userMessage net) =
      [requestFor (messages ++ [userMessage])] := by
  rcases guardedEffects_cases env messages userMessage net with
    ⟨error, h⟩ | ⟨content, _, h⟩ | ⟨content, _, h⟩ | h
  all_goals rw [h]; simp [requestsOf]

theorem caughtMessage_sender (error : JsError) :
    (caughtMessage error).get "sender" = .str "ai" := by
  simp [caughtMessage, JsObject.get, lookupProp]

/-- Whatever happens to the request, every message the guarded part appends
has the sender `ai`; it appends one message, or two where a reply was appended
and speech synthesis is not available. -/
theorem guardedEffects_appended (env : Browser) (messages : List JsObject)
    (userMessage : JsObject) (net : FetchResult) :
    (∀ m ∈ appendedBy (guardedEffects env messages userMessage net),
      m.get "sender" = .str "ai") ∧
    ((∃ reply, appendedBy (guardedEffects env messages userMessage net) = [reply]) ∨
      (env.canSpeak = false ∧ ∃ content,
        appendedBy (guardedEffects env messages userMessage net) =
          [aiMessageOf content, failureMessage])) := by
  rcases guardedEffects_cases env messages userMessage net with
    ⟨error, h⟩ | ⟨content, _, h⟩ | ⟨content, hcan, h⟩ | h
  · rw [h]
    simp [appendedBy, caughtMessage_sender]
  · rw [h]
    simp [appendedBy, aiMessageOf, JsObject.get, lookupProp]
  · rw [h]
    simp [appendedBy, aiMessageOf, failureMessage, JsObject.get, lookupProp, hcan]
  · rw [h]
    simp [appendedBy, noResponseMessage, JsObject.get, lookupProp]

/-- The guarded part appends no message whose sender is `user`. -/
theorem guardedEffects_no_user (env : Browser) (messages : List JsObject)
    (userMessage : JsObject) (net : FetchResult) :
    (appendedBy (guardedEffects env messages userMessage net)).filter
      (fun m => strictEqStr (m.get "sender") "user") = [] := by
  rw [List.filter_eq_nil_iff]
  intro m hm
  rw [(guardedEffects_appended env messages userMessage net).1 m hm]
  decide

/-- Replaying effects extends the transcript by the messages they append. -/
theorem applyEffects_messages (effects : List Effect) (st : State) :
    (applyEffects st effects).messages = st.messages ++ appendedBy effects := by
  induction effects generalizing st with
  | nil => simp [applyEffects, appendedBy]
  | cons e rest ih =>
    have hstep : applyEffects st (e :: rest) = applyEffects (applyEffect st e) rest := rfl
    rw [hstep, ih]
    cases e <;> simp [applyEffect, appendedBy]

/-- The message thrown for a non-2xx reply passes the test of the `catch` block. -/
theorem jsStartsWith_label (rest : String) :
    jsStartsWith ("OpenRouter API Error: " ++ rest) "OpenRouter API Error" = true := by
  unfold jsStartsWith
  rw [String.data_append]
  rfl

/-- A body whose `choices` is a non-empty array passes the test at line 131. -/
theorem hasChoices_of_array (toNumberPos : JsVal → Bool) (data first : JsVal)
    (rest : List JsVal) (hchoices : getProp data "choices" = .ok (.arr (first :: rest))) :
    hasChoices toNumberPos data = .ok true := by
  unfold hasChoices
  rw [hchoices]
  simp only [bind, Except.bind, truthy, ↓reduceIte, getProp, pure, Except.pure, gtZero]
  simp only [List.length_cons, decide_eq_true_eq, Except.ok.injEq]
  omega

/-- A body whose `choices` is absent, `null` or an empty array fails the test
at line 131 without throwing. -/
theorem hasChoices_of_empty (toNumberPos : JsVal → Bool) (data choices : JsVal)
    (hchoices : getProp data "choices" = .ok choices)
    (hempty : choices = .undefined ∨ choices = .null ∨ choices = .arr []) :
    hasChoices toNumberPos data = .ok false := by
  unfold hasChoices
  rw [hchoices]
  rcases hempty with h | h | h <;> subst h
  · rfl
  · rfl
  · simp [bind, Except.bind, truthy, getProp, pure, Except.pure, gtZero]

/-- The content read from a body whose first choice carries a message. -/
theorem firstChoiceContent_of_array (data first message content : JsVal) (rest : List JsVal)
    (hchoices : getProp data "choices" = .ok (.arr (first :: rest)))
    (hmessage : getProp first "message" = .ok message)
    (hcontent : getProp message "content" = .ok content) :
    firstChoiceContent data = .ok content := by
  unfold firstChoiceContent
  rw [hchoices]
  simp only [bind, Except.bind, getIndex0, hmessage, hcontent]

theorem Response.ok_iff (r : Response) : r.ok = true ↔ 200 ≤ r.status ∧ r.status ≤ 299 := by
  simp [Response.ok]

/-- The guarded part for a non-2xx reply whose body was read. -/
theorem guardedEffects_http_error (env : Browser) (messages : List JsObject)
    (userMessage : JsObject) (status : Nat) (errorText : String) (json : Except JsError JsVal)
    (hstatus : ¬ (200 ≤ status ∧ status ≤ 299)) :
    guardedEffects env messages userMessage (.resolved ⟨status, .ok errorText, json⟩) =
      [.fetch (requestFor (messages ++ [userMessage])),
       .setMessages
        [("text", .str ("OpenRouter API Error: " ++ toString status ++ " - " ++ errorText)),
         ("sender", .str "ai")]] := by
  have hok : (Response.mk status (.ok errorText) json).ok = false := by
    rw [← Bool.not_eq_true, Response.ok_iff]
    exact hstatus
  have hlabel : jsStartsWith
      ("OpenRouter API Error: " ++ toString status ++ " - " ++ errorText)
      "OpenRouter API Error" = true := by
    have h := jsStartsWith_label (toString status ++ " - " ++ errorText)
    simpa [String.append_assoc] using h
  simp only [guardedEffects, tryBlock, hok, Bool.not_false, ↓reduceIte, catchBlock, hlabel,
    requestFor, List.singleton_append]

/-- The guarded part for a 2xx reply whose body passes the test at line 131
and whose first choice has a content, where speech synthesis is available. -/
theorem guardedEffects_reply (env : Browser) (messages : List JsObject)
    (userMessage : JsObject) (status : Nat) (text : Except JsError String)
    (data content : JsVal) (hstatus : 200 ≤ status ∧ status ≤ 299)
    (htest : hasChoices env.toNumberPos data = .ok true)
    (hcontent : firstChoiceContent data = .ok content)
    (hcan : env.canSpeak = true) :
    guardedEffects env messages userMessage (.resolved ⟨status, text, .ok data⟩) =
      [.fetch (requestFor (messages ++ [userMessage])),
       .setMessages [("text", content), ("sender", .str "ai")],
       .speak content] := by
  have hok : (Response.mk status text (.ok data)).ok = true :=
    (Response.ok_iff _).2 hstatus
  have hsp : speak env content = ([.speak content], none) := by
    rcases speak_cases env content with ⟨_, h⟩ | ⟨h, _⟩
    · exact h
    · rw [hcan] at h
      exact Bool.noConfusion h
  simp [guardedEffects, tryBlock, hok, htest, hcontent, requestFor, JsObject.get, lookupProp,
    hsp]

/-- The guarded part for a 2xx reply whose body fails the test at line 131. -/
theorem guardedEffects_no_choice (env : Browser) (messages : List JsObject)
    (userMessage : JsObject) (status : Nat) (text : Except JsError String)
    (data : JsVal) (hstatus : 200 ≤ status ∧ status ≤ 299)
    (htest : hasChoices env.toNumberPos data = .ok false) :
    guardedEffects env messages userMessage (.resolved ⟨status, text, .ok data⟩) =
      [.fetch (requestFor (messages ++ [userMessage])),
       .setMessages [("text", .str "The AI didn't provide a response. Please try again."),
         ("sender", .str "ai")]] := by
  have hok : (Response.mk status text (.ok data)).ok = true :=
    (Response.ok_iff _).2 hstatus
  simp [guardedEffects, tryBlock, hok, htest, requestFor]

/-- The inactivity hook changes only the pending timer. -/
theorem commitInactivityEffect_messages (now : Int) (old new : State) :
    (commitInactivityEffect now old new).messages = new.messages ∧
    (commitInactivityEffect now old new).lastUserMessageTime = new.lastUserMessageTime ∧
    (commitInactivityEffect now old new).inputText = new.inputText := by
  unfold commitInactivityEffect
  split <;> simp

/-- One event extends the transcript by the messages its effects append. -/
theorem step_messages (env : Browser) (st : State) (ev : Event) :
    (step env st ev).messages = st.messages ++ appendedBy (eventEffects env st ev) := by
  unfold step
  rw [(commitInactivityEffect_messages _ _ _).1, applyEffects_messages]
  cases ev <;> rfl

/-- The inactivity callback never writes `lastUserMessageTime`. -/
theorem inactivityCallback_timesSet (lastUserMessageTime now : Int) :
    timesSetBy (inactivityCallback lastUserMessageTime now) = [] := by
  unfold inactivityCallback
  split <;> simp [timesSetBy]

/-- A call whose text is not a non-blank string does nothing. -/
theorem sendMessage_effects_of_blank (env : Browser) (messages : List JsObject)
    (inputText : String) (voiceInput : JsVal) (now : Int) (net : FetchResult)
    (hblank : ∀ s, messageTextOf voiceInput inputText = .str s → jsTrim s = "") :
    (sendMessage env messages inputText voiceInput now net).effects = [] := by
  unfold sendMessage
  split
  · rename_i s hs
    simp [hblank s hs]
  · rfl

/-- The guarded part never writes `lastUserMessageTime`. -/
theorem guardedEffects_timesSet (env : Browser) (messages : List JsObject)
    (userMessage : JsObject) (net : FetchResult) :
    timesSetBy (guardedEffects env messages userMessage net) = [] := by
  rcases guardedEffects_cases env messages userMessage net with
    ⟨error, h⟩ | ⟨content, _, h⟩ | ⟨content, _, h⟩ | h
  all_goals rw [h]; simp [timesSetBy]

/-- Replaying effects leaves in `lastUserMessageTime` the last time they
write, or the old value when they write none. -/
theorem applyEffects_lastUserMessageTime (effects : List Effect) (st : State) :
    (applyEffects st effects).lastUserMessageTime =
      ((timesSetBy effects).getLast?).getD st.lastUserMessageTime := by
  induction effects generalizing st with
  | nil => simp [applyEffects, timesSetBy]
  | cons e rest ih =>
    have hstep : applyEffects st (e :: rest) = applyEffects (applyEffect st e) rest := rfl
    rw [hstep, ih]
    cases e with
    | setLastUserMessageTime t =>
      have hcons : timesSetBy (Effect.setLastUserMessageTime t :: rest) = t :: timesSetBy rest := by
        simp [timesSetBy]
      rw [hcons, List.getLast?_cons]
      simp [applyEffect]
    | setMessages m => simp [applyEffect, timesSetBy]
    | setInputText v => simp [applyEffect, timesSetBy]
    | fetch body => simp [applyEffect, timesSetBy]
    | speak text => simp [applyEffect, timesSetBy]

/-- One event leaves in `lastUserMessageTime` the last time its effects write. -/
theorem step_lastUserMessageTime (env : Browser) (st : State) (ev : Event) :
    (step env st ev).lastUserMessageTime =
      ((timesSetBy (eventEffects env st ev)).getLast?).getD st.lastUserMessageTime := by
  unfold step
  rw [(commitInactivityEffect_messages _ _ _).2.1, applyEffects_lastUserMessageTime]
  cases ev <;> rfl

/-- The text of a click on the Send button is `inputText`. -/
theorem messageTextOf_undefined (inputText : String) :
    messageTextOf .undefined inputText = .str inputText := rfl

/-- The text of a spoken turn is the transcript: the first render's
`inputText` is `''`. -/
theorem messageTextOf_str (transcript : String) :
    messageTextOf (.str transcript) "" = .str transcript := by
  by_cases h : transcript = ""
  · subst h
    rfl
  · simp [messageTextOf, truthy, h]

/-- A call of `sendMessage` either appends a user message and writes `now` to
`lastUserMessageTime`, or performs no effect. -/
theorem sendMessage_user_turn (env : Browser) (messages : List JsObject) (inputText : String)
    (voiceInput : JsVal) (now : Int) (net : FetchResult) :
    (appendsUserMessage (sendMessage env messages inputText voiceInput now net).effects = true ∧
      timesSetBy (sendMessage env messages inputText voiceInput now net).effects = [now]) ∨
    (sendMessage env messages inputText voiceInput now net).effects = [] := by
  by_cases hvalid : ∃ s, messageTextOf voiceInput inputText = .str s ∧ jsTrim s ≠ ""
  · left
    obtain ⟨s, htext, hs⟩ := hvalid
    rw [sendMessage_effects_of_valid env messages inputText voiceInput now net s htext hs]
    constructor
    · simp [appendsUserMessage, appendedBy, userMessageOf, JsObject.get, lookupProp,
        strictEqStr]
    · rw [timesSetBy_append, guardedEffects_timesSet]
      simp [timesSetBy]
  · right
    have hblank : ∀ s, messageTextOf voiceInput inputText = .str s → jsTrim s = "" := by
      intro s htext
      by_contra hs
      exact hvalid ⟨s, htext, hs⟩
    exact sendMessage_effects_of_blank env messages inputText voiceInput now net hblank

/-- An event either appends a user message and writes its own time to
`lastUserMessageTime`, or appends no user message and writes no time. -/
theorem eventEffects_user_turn (env : Browser) (st : State) (ev : Event) :
    (appendsUserMessage (eventEffects env st ev) = true ∧
      timesSetBy (eventEffects env st ev) = [(ev.time).getD 0]) ∨
    (appendsUserMessage (eventEffects env st ev) = false ∧
      timesSetBy (eventEffects env st ev) = []) := by
  cases ev with
  | input value =>
    right
    simp [eventEffects, appendsUserMessage, appendedBy, timesSetBy]
  | timeout now =>
    right
    simp only [eventEffects]
    cases st.inactivityTimeout with
    | none => simp [appendsUserMessage, appendedBy, timesSetBy]
    | some due =>
      simp only [inactivityCallback]
      split
      · simp [appendsUserMessage, appendedBy, timesSetBy, proactiveMessage, JsObject.get,
          lookupProp, strictEqStr]
      · simp [appendsUserMessage, appendedBy, timesSetBy]
  | click now net =>
    simp only [eventEffects, Event.time, Option.getD_some]
    rcases sendMessage_user_turn env st.messages st.inputText .undefined now net with h | h
    · exact Or.inl h
    · right
      rw [h]
      simp [appendsUserMessage, appendedBy, timesSetBy]
  | voice transcript now net =>
    simp only [eventEffects, Event.time, Option.getD_some]
    have happ : ∀ effs : List Effect,
        appendsUserMessage (.setInputText transcript :: effs) = appendsUserMessage effs := by
      intro effs
      simp [appendsUserMessage, appendedBy]
    have htimes : ∀ effs : List Effect,
        timesSetBy (.setInputText transcript :: effs) = timesSetBy effs := by
      intro effs
      simp [timesSetBy]
    rw [happ, htimes]
    rcases sendMessage_user_turn env [] "" (.str transcript) now net with h | h
    · exact Or.inl h
    · right
      rw [h]
      simp [appendsUserMessage, appendedBy, timesSetBy]

/-- After a run, `lastUserMessageTime` is the time of the last event that
appended a user message, or the initial value when there was none. -/
theorem run_lastUserMessageTime (env : Browser) (evs : List Event) (st : State) :
    (run env st evs).lastUserMessageTime =
      ((userTurnTimes env st evs).getLast?).getD st.lastUserMessageTime := by
  induction evs generalizing st with
  | nil => simp [run, userTurnTimes]
  | cons ev rest ih =>
    have hrun : run env st (ev :: rest) = run env (step env st ev) rest :=
      rfl
    rw [hrun, ih, step_lastUserMessageTime]
    simp only [userTurnTimes]
    rcases eventEffects_user_turn env st ev with ⟨huser, htimes⟩ | ⟨huser, htimes⟩
    · rw [huser, htimes]
      simp only [↓reduceIte, List.singleton_append, List.getLast?_singleton, Option.getD_some,
        List.getLast?_cons, List.getLast?_nil, Option.getD_none]
    · rw [huser, htimes]
      simp

/-- A run only extends the transcript. -/
theorem run_messages (env : Browser) (evs : List Event) (st : State) :
    ∃ added : List JsObject, (run env st evs).messages = st.messages ++ added := by
  induction evs generalizing st with
  | nil => exact ⟨[], by simp [run]⟩
  | cons ev rest ih =>
    have hrun : run env st (ev :: rest) = run env (step env st ev) rest :=
      rfl
    obtain ⟨added, hadded⟩ := ih (step env st ev)
    refine ⟨appendedBy (eventEffects env st ev) ++ added, ?_⟩
    rw [hrun, hadded, step_messages, List.append_assoc]

/-! ## The request -/

/-- For a non-blank text, `sendMessage` issues one request whose `messages`
array has one entry more than `messages`, the transcript of its render,
extended by the new user message; the first entry is `systemMessage`, every
later entry is the image of the message at the same place with role `user` or
`assistant` (`user` exactly for a `user` sender), and an entry has role
`system` exactly when it is the first. -/
theorem sendMessage_request_shape (env : Browser) (messages : List JsObject)
    (inputText : String) (voiceInput : JsVal) (now : Int) (net : FetchResult)
    (messageText : String) (htext : messageTextOf voiceInput inputText = .str messageText)
    (hvalid : jsTrim messageText ≠ "") :
    ∃ body : RequestBody,
      requestsOf (sendMessage env messages inputText voiceInput now net).effects
        = [body] ∧
      (appendedBy
        (sendMessage env messages inputText voiceInput now net).effects).head?
        = some (userMessageOf messageText) ∧
      body.messages.length = (messages ++ [userMessageOf messageText]).length + 1 ∧
      body.messages.head? = some systemMessage ∧
      (∀ (i : Nat) (m : JsObject), (messages ++ [userMessageOf messageText])[i]? = some m →
        ∃ entry : JsObject, body.messages[i + 1]? = some entry ∧
          (entry.get "role" = .str "user" ∨ entry.get "role" = .str "assistant") ∧
          (entry.get "role" = .str "user" ↔ m.get "sender" = .str "user")) ∧
      (∀ (i : Nat) (entry : JsObject), body.messages[i]? = some entry →
        (entry.get "role" = .str "system" ↔ i = 0)) := by
  refine ⟨requestFor (messages ++ [userMessageOf messageText]), ?_, ?_, ?_, ?_, ?_, ?_⟩
  · rw [sendMessage_effects_of_valid env messages inputText voiceInput now net
      messageText htext hvalid, requestsOf_append, guardedEffects_requests]
    simp [requestsOf]
  · rw [sendMessage_effects_of_valid env messages inputText voiceInput now net
      messageText htext hvalid, appendedBy_append]
    simp [appendedBy]
  · simp [requestFor]
  · simp [requestFor]
  · intro i m hm
    refine ⟨toApiMessage m, ?_, (toApiMessage_role_cases m).1, (toApiMessage_role_cases m).2.1⟩
    simp only [requestFor, List.getElem?_cons_succ, List.getElem?_map, hm, Option.map_some']
  · intro i entry hentry
    cases i with
    | zero =>
      simp only [requestFor, List.getElem?_cons_zero, Option.some.injEq] at hentry
      subst hentry
      simp [systemMessage_role]
    | succ j =>
      simp only [requestFor, List.getElem?_cons_succ, List.getElem?_map] at hentry
      rcases h : (messages ++ [userMessageOf messageText])[j]? with _ | m
      · simp [h] at hentry
      · simp only [h, Option.map_some', Option.some.injEq] at hentry
        subst hentry
        simp [(toApiMessage_role_cases m).2.2]

/-- C1: the text `a` is typed and sent and answered by `r1`, then the text `b`
is spoken. The transcript with the new user message has three entries, so the
request should have four; the handler `onresult` calls the `sendMessage` of the
first render, whose `messages` is `[]`, and the request has two entries, the
system message and the entry of `b`. With `b` typed and sent by the Send
button in the same state the request has the four entries. -/
theorem voice_request_drops_transcript :
    (run ⟨fun _ => false, true, true⟩ (mount 0 0)
      [.input "a", .click 1000 (.resolved ⟨200, .ok "", .ok (.obj [("choices",
        .arr [.obj [("message", .obj [("content", .str "r1")])]])])⟩)]).messages
      = [userMessageOf "a", aiMessageOf (.str "r1")] ∧
    ((step ⟨fun _ => false, true, true⟩
      (run ⟨fun _ => false, true, true⟩ (mount 0 0) [.input "a", .click 1000 (.resolved ⟨200, .ok "", .ok (.obj [("choices",
        .arr [.obj [("message", .obj [("content", .str "r1")])]])])⟩)])
      (.voice "b" 2000 (.resolved ⟨200, .ok "", .ok (.obj [("choices",
        .arr [.obj [("message", .obj [("content", .str "r1")])]])])⟩))).messages.take 3)
      = [userMessageOf "a", aiMessageOf (.str "r1"), userMessageOf "b"] ∧
    requestsOf (eventEffects ⟨fun _ => false, true, true⟩
      (run ⟨fun _ => false, true, true⟩ (mount 0 0) [.input "a", .click 1000 (.resolved ⟨200, .ok "", .ok (.obj [("choices",
        .arr [.obj [("message", .obj [("content", .str "r1")])]])])⟩)])
      (.voice "b" 2000 (.resolved ⟨200, .ok "", .ok (.obj [("choices",
        .arr [.obj [("message", .obj [("content", .str "r1")])]])])⟩)))
      = [{ model := "openchat/openchat-7b:free",
           messages := [systemMessage, [("role", .str "user"), ("content", .str "b")]] }] ∧
    requestsOf (eventEffects ⟨fun _ => false, true, true⟩
      (run ⟨fun _ => false, true, true⟩ (mount 0 0)
        [.input "a", .click 1000 (.resolved ⟨200, .ok "", .ok (.obj [("choices",
        .arr [.obj [("message", .obj [("content", .str "r1")])]])])⟩), .input "b"])
      (.click 2000 (.resolved ⟨200, .ok "", .ok (.obj [("choices",
        .arr [.obj [("message", .obj [("content", .str "r1")])]])])⟩)))
      = [{ model := "openchat/openchat-7b:free",
           messages := [systemMessage,
             [("role", .str "user"), ("content", .str "a")],
             [("role", .str "assistant"), ("content", .str "r1")],
             [("role", .str "user"), ("content", .str "b")]] }] :=
  ⟨rfl, rfl, rfl, rfl⟩

/-- C2: the typed text `hi` on the empty transcript builds
`[system, {role: "user", content: "hi"}]`. On the transcript
`[proactiveMessage]`, which the inactivity timer produces from the mounted
component, the request forwards the proactive message as an `assistant` entry
whose `content` is `undefined`: `proactiveMessage` carries its prompt under
`content` and has no `text`, the property the `map` reads. -/
theorem proactiveMessage_forwarded_without_content :
    requestsOf (sendMessage ⟨fun _ => false, true, true⟩ [] "hi" .null 20000
        (.rejected ⟨"Failed to fetch"⟩)).effects =
      [{ model := "openchat/openchat-7b:free",
         messages := [systemMessage, [("role", .str "user"), ("content", .str "hi")]] }] ∧
    (step ⟨fun _ => false, true, true⟩ (mount 0 0) (.timeout 15001)).messages = [proactiveMessage] ∧
    requestsOf (sendMessage ⟨fun _ => false, true, true⟩ [proactiveMessage] "hi" .null 20000
        (.rejected ⟨"Failed to fetch"⟩)).effects =
      [{ model := "openchat/openchat-7b:free",
         messages := [systemMessage,
           [("role", .str "assistant"), ("content", .undefined)],
           [("role", .str "user"), ("content", .str "hi")]] }] ∧
    proactiveMessage.get "text" = .undefined ∧
    proactiveMessage.get "content" =
      .str "Hi there! What's your favorite animal today? Or would you like to sing a song with me?" :=
  ⟨rfl, rfl, rfl, rfl, rfl⟩

/-! ## Outcomes of a user turn -/

/-- The handler never ends with an exception: everything after the state
updates runs inside the `try`, and the `catch` block does not throw. -/
theorem sendMessage_raised (env : Browser) (messages : List JsObject)
    (inputText : String) (voiceInput : JsVal) (now : Int) (net : FetchResult) :
    (sendMessage env messages inputText voiceInput now net).raised = none := by
  unfold sendMessage
  split
  · split
    · dsimp only
      generalize tryBlock env messages _ net = r
      rcases r with ⟨done, _ | error⟩
      · rfl
      · rfl
    · rfl
  · rfl

/-- For a non-blank text and every way the request can settle, `sendMessage`
ends without an exception; after the user message it appends one message with
sender `ai`, or, where a reply was appended and speech synthesis is not
available, the reply and then `failureMessage`. -/
theorem sendMessage_appended (env : Browser) (messages : List JsObject)
    (inputText : String) (voiceInput : JsVal) (now : Int) (net : FetchResult)
    (messageText : String) (htext : messageTextOf voiceInput inputText = .str messageText)
    (hvalid : jsTrim messageText ≠ "") :
    (sendMessage env messages inputText voiceInput now net).raised = none ∧
    ((∃ reply : JsObject,
        appendedBy (sendMessage env messages inputText voiceInput now net).effects
          = [userMessageOf messageText, reply] ∧
        reply.get "sender" = .str "ai") ∨
      (env.canSpeak = false ∧ ∃ content : JsVal,
        appendedBy (sendMessage env messages inputText voiceInput now net).effects
          = [userMessageOf messageText, aiMessageOf content, failureMessage])) := by
  refine ⟨sendMessage_raised env messages inputText voiceInput now net, ?_⟩
  rw [sendMessage_effects_of_valid env messages inputText voiceInput now net
    messageText htext hvalid, appendedBy_append]
  obtain ⟨hall, hshape⟩ :=
    guardedEffects_appended env messages (userMessageOf messageText) net
  rcases hshape with ⟨reply, hreply⟩ | ⟨hcan, content, hreply⟩
  · left
    refine ⟨reply, ?_, hall reply ?_⟩
    · rw [hreply]
      simp [appendedBy]
    · rw [hreply]
      simp
  · right
    refine ⟨hcan, content, ?_⟩
    rw [hreply]
    simp [appendedBy]

/-- C3: the text `hi` is sent in a browser where `SpeechSynthesisUtterance` is
not defined, and the request is answered by a 2xx reply with the choice
`hello!`. The reply is appended, `speak` throws inside the `try` block, and the
`catch` block appends `failureMessage` after it: the turn leaves three
messages in the transcript, two of them with sender `ai`, and nothing is
spoken; the same happens where `window.speechSynthesis` is not defined. Where
speech synthesis is available the same turn leaves two. -/
theorem speak_failure_appends_second_reply :
    appendedBy (sendMessage ⟨fun _ => false, false, true⟩ [] "hi" .undefined 1000
      (.resolved ⟨200, .ok "", .ok (.obj [("choices",
        .arr [.obj [("message", .obj [("content", .str "hello!")])]])])⟩)).effects
      = [userMessageOf "hi", aiMessageOf (.str "hello!"), failureMessage] ∧
    (applyEffects (mount 0 0)
      (sendMessage ⟨fun _ => false, false, true⟩ [] "hi" .undefined 1000
        (.resolved ⟨200, .ok "", .ok (.obj [("choices",
        .arr [.obj [("message", .obj [("content", .str "hello!")])]])])⟩)).effects).messages.length = 3 ∧
    spokenBy (sendMessage ⟨fun _ => false, false, true⟩ [] "hi" .undefined 1000
      (.resolved ⟨200, .ok "", .ok (.obj [("choices",
        .arr [.obj [("message", .obj [("content", .str "hello!")])]])])⟩)).effects = [] ∧
    (sendMessage ⟨fun _ => false, false, true⟩ [] "hi" .undefined 1000
      (.resolved ⟨200, .ok "", .ok (.obj [("choices",
        .arr [.obj [("message", .obj [("content", .str "hello!")])]])])⟩)).raised = none ∧
    failureMessage.get "sender" = .str "ai" ∧
    appendedBy (sendMessage ⟨fun _ => false, true, false⟩ [] "hi" .undefined 1000
      (.resolved ⟨200, .ok "", .ok (.obj [("choices",
        .arr [.obj [("message", .obj [("content", .str "hello!")])]])])⟩)).effects
      = [userMessageOf "hi", aiMessageOf (.str "hello!"), failureMessage] ∧
    appendedBy (sendMessage ⟨fun _ => false, true, true⟩ [] "hi" .undefined 1000
      (.resolved ⟨200, .ok "", .ok (.obj [("choices",
        .arr [.obj [("message", .obj [("content", .str "hello!")])]])])⟩)).effects
      = [userMessageOf "hi", aiMessageOf (.str "hello!")] :=
  ⟨rfl, rfl, rfl, rfl, rfl, rfl, rfl⟩

/-- C6: for a non-blank text and a reply whose status `status` is outside
200-299 and whose body reads as `body`, `sendMessage` appends, after the user
message, exactly one message with sender `ai` whose text is
`"OpenRouter API Error: " ++ status ++ " - " ++ body`, and speaks nothing. -/
theorem sendMessage_http_error (env : Browser) (messages : List JsObject)
    (inputText : String) (voiceInput : JsVal) (now : Int) (messageText : String)
    (status : Nat) (body : String) (json : Except JsError JsVal)
    (htext : messageTextOf voiceInput inputText = .str messageText)
    (hvalid : jsTrim messageText ≠ "")
    (hstatus : ¬ (200 ≤ status ∧ status ≤ 299)) :
    appendedBy (sendMessage env messages inputText voiceInput now
        (.resolved ⟨status, .ok body, json⟩)).effects =
      [userMessageOf messageText,
       [("text", .str ("OpenRouter API Error: " ++ toString status ++ " - " ++ body)),
        ("sender", .str "ai")]] ∧
    spokenBy (sendMessage env messages inputText voiceInput now
        (.resolved ⟨status, .ok body, json⟩)).effects = [] := by
  rw [sendMessage_effects_of_valid env messages inputText voiceInput now _
    messageText htext hvalid,
    guardedEffects_http_error env messages _ status body json hstatus]
  constructor
  · simp [appendedBy]
  · simp [spokenBy]

/-- Witness of C6: status 429 with the body `rate limited`. -/
theorem sendMessage_http_error_witness :
    (appendedBy (sendMessage ⟨fun _ => false, true, true⟩ [] "hi" .null 1000
        (.resolved ⟨429, .ok "rate limited", .error ⟨"Unexpected token"⟩⟩)).effects =
      [userMessageOf "hi",
       [("text", .str ("OpenRouter API Error: " ++ toString 429 ++ " - " ++ "rate limited")),
        ("sender", .str "ai")]] ∧
    spokenBy (sendMessage ⟨fun _ => false, true, true⟩ [] "hi" .null 1000
        (.resolved ⟨429, .ok "rate limited", .error ⟨"Unexpected token"⟩⟩)).effects = []) ∧
    "OpenRouter API Error: " ++ toString 429 ++ " - " ++ "rate limited"
      = "OpenRouter API Error: 429 - rate limited" :=
  ⟨sendMessage_http_error ⟨fun _ => false, true, true⟩ [] "hi" .null 1000 "hi" 429 "rate limited"
    (.error ⟨"Unexpected token"⟩) (by rfl) (by decide) (by decide), by decide⟩

/-- C7, a first choice without a message: the 2xx body `{choices: [{}]}` has
one choice and passes the test at line 131; reading `.content` of the absent
message throws, the `catch` block appends `failureMessage`, whose text is not
`choices[0].message.content`, and nothing is spoken. -/
theorem first_choice_without_message :
    getProp (.obj [("choices", .arr [.obj []])]) "choices" = .ok (.arr [.obj []]) ∧
    hasChoices (fun _ => false) (.obj [("choices", .arr [.obj []])]) = .ok true ∧
    appendedBy (sendMessage ⟨fun _ => false, true, true⟩ [] "hi" .undefined 1000
      (.resolved ⟨200, .ok "", .ok (.obj [("choices", .arr [.obj []])])⟩)).effects
      = [userMessageOf "hi", failureMessage] ∧
    spokenBy (sendMessage ⟨fun _ => false, true, true⟩ [] "hi" .undefined 1000
      (.resolved ⟨200, .ok "", .ok (.obj [("choices", .arr [.obj []])])⟩)).effects = [] :=
  ⟨rfl, rfl, rfl, rfl⟩

/-- C7, amended: for a non-blank text, in a browser where speech synthesis is
available, and a 2xx reply whose parsed body has a `choices` array with a
first element `first` whose message is present, so that
`first.message.content` evaluates to `content`, `sendMessage` appends, after
the user message, exactly one message with sender `ai` and text `content`, and
passes `content` to `speak`; a body with the same first choice and other later
choices gives the same effects. -/
theorem sendMessage_first_choice (env : Browser) (messages : List JsObject)
    (inputText : String) (voiceInput : JsVal) (now : Int) (messageText : String)
    (status : Nat) (text : Except JsError String) (data first message content : JsVal)
    (rest : List JsVal)
    (htext : messageTextOf voiceInput inputText = .str messageText)
    (hvalid : jsTrim messageText ≠ "")
    (hcan : env.canSpeak = true)
    (hstatus : 200 ≤ status ∧ status ≤ 299)
    (hchoices : getProp data "choices" = .ok (.arr (first :: rest)))
    (hmessage : getProp first "message" = .ok message)
    (hcontent : getProp message "content" = .ok content) :
    appendedBy (sendMessage env messages inputText voiceInput now
        (.resolved ⟨status, text, .ok data⟩)).effects =
      [userMessageOf messageText, [("text", content), ("sender", .str "ai")]] ∧
    spokenBy (sendMessage env messages inputText voiceInput now
        (.resolved ⟨status, text, .ok data⟩)).effects = [content] ∧
    ∀ (other : JsVal) (others : List JsVal),
      getProp other "choices" = .ok (.arr (first :: others)) →
      (sendMessage env messages inputText voiceInput now
        (.resolved ⟨status, text, .ok other⟩)).effects =
      (sendMessage env messages inputText voiceInput now
        (.resolved ⟨status, text, .ok data⟩)).effects := by
  have hdata := guardedEffects_reply env messages (userMessageOf messageText) status
    text data content hstatus (hasChoices_of_array env.toNumberPos data first rest hchoices)
    (firstChoiceContent_of_array data first message content rest hchoices hmessage hcontent)
    hcan
  refine ⟨?_, ?_, ?_⟩
  · rw [sendMessage_effects_of_valid env messages inputText voiceInput now _
      messageText htext hvalid, hdata]
    simp [appendedBy]
  · rw [sendMessage_effects_of_valid env messages inputText voiceInput now _
      messageText htext hvalid, hdata]
    simp [spokenBy]
  · intro other others hother
    rw [sendMessage_effects_of_valid env messages inputText voiceInput now _
      messageText htext hvalid,
      sendMessage_effects_of_valid env messages inputText voiceInput now _
      messageText htext hvalid, hdata,
      guardedEffects_reply env messages (userMessageOf messageText) status
        text other content hstatus (hasChoices_of_array env.toNumberPos other first others hother)
        (firstChoiceContent_of_array other first message content others hother hmessage
          hcontent) hcan]

/-- Witness of C7, amended: the body `{choices:[{message:{content:"hello!"}}]}`. -/
theorem sendMessage_first_choice_witness :
    appendedBy (sendMessage ⟨fun _ => false, true, true⟩ [] "hi" .null 1000
        (.resolved ⟨200, .ok "", .ok (.obj [("choices",
          .arr [.obj [("message", .obj [("content", .str "hello!")])]])])⟩)).effects =
      [userMessageOf "hi", [("text", .str "hello!"), ("sender", .str "ai")]] ∧
    spokenBy (sendMessage ⟨fun _ => false, true, true⟩ [] "hi" .null 1000
        (.resolved ⟨200, .ok "", .ok (.obj [("choices",
          .arr [.obj [("message", .obj [("content", .str "hello!")])]])])⟩)).effects
      = [.str "hello!"] ∧
    ∀ (other : JsVal) (others : List JsVal),
      getProp other "choices" =
        .ok (.arr (.obj [("message", .obj [("content", .str "hello!")])] :: others)) →
      (sendMessage ⟨fun _ => false, true, true⟩ [] "hi" .null 1000
        (.resolved ⟨200, .ok "", .ok other⟩)).effects =
      (sendMessage ⟨fun _ => false, true, true⟩ [] "hi" .null 1000
        (.resolved ⟨200, .ok "", .ok (.obj [("choices",
          .arr [.obj [("message", .obj [("content", .str "hello!")])]])])⟩)).effects :=
  sendMessage_first_choice ⟨fun _ => false, true, true⟩ [] "hi" .null 1000 "hi" 200 (.ok "")
    (.obj [("choices", .arr [.obj [("message", .obj [("content", .str "hello!")])]])])
    (.obj [("message", .obj [("content", .str "hello!")])])
    (.obj [("content", .str "hello!")]) (.str "hello!") []
    (by rfl) (by decide) (by rfl) (by decide) (by rfl) (by rfl) (by rfl)

/-- C8: for a non-blank text and a 2xx reply whose parsed body has `choices`
absent, `null` or an empty array, whatever else the body holds, `sendMessage`
appends, after the user message, exactly one message with sender `ai` and the
text `The AI didn't provide a response. Please try again.`, and speaks
nothing. -/
theorem sendMessage_no_choice (env : Browser) (messages : List JsObject)
    (inputText : String) (voiceInput : JsVal) (now : Int) (messageText : String)
    (status : Nat) (text : Except JsError String) (data choices : JsVal)
    (htext : messageTextOf voiceInput inputText = .str messageText)
    (hvalid : jsTrim messageText ≠ "")
    (hstatus : 200 ≤ status ∧ status ≤ 299)
    (hchoices : getProp data "choices" = .ok choices)
    (hempty : choices = .undefined ∨ choices = .null ∨ choices = .arr []) :
    appendedBy (sendMessage env messages inputText voiceInput now
        (.resolved ⟨status, text, .ok data⟩)).effects =
      [userMessageOf messageText,
       [("text", .str "The AI didn't provide a response. Please try again."),
        ("sender", .str "ai")]] ∧
    spokenBy (sendMessage env messages inputText voiceInput now
        (.resolved ⟨status, text, .ok data⟩)).effects = [] := by
  rw [sendMessage_effects_of_valid env messages inputText voiceInput now _
    messageText htext hvalid,
    guardedEffects_no_choice env messages _ status text data hstatus
      (hasChoices_of_empty env.toNumberPos data choices hchoices hempty)]
  constructor
  · simp [appendedBy]
  · simp [spokenBy]

/-- Witness of C8: the body `{choices: []}`. -/
theorem sendMessage_no_choice_witness :
    appendedBy (sendMessage ⟨fun _ => false, true, true⟩ [] "hi" .null 1000
        (.resolved ⟨200, .ok "", .ok (.obj [("choices", .arr [])])⟩)).effects =
      [userMessageOf "hi",
       [("text", .str "The AI didn't provide a response. Please try again."),
        ("sender", .str "ai")]] ∧
    spokenBy (sendMessage ⟨fun _ => false, true, true⟩ [] "hi" .null 1000
        (.resolved ⟨200, .ok "", .ok (.obj [("choices", .arr [])])⟩)).effects = [] :=
  sendMessage_no_choice ⟨fun _ => false, true, true⟩ [] "hi" .null 1000 "hi" 200 (.ok "")
    (.obj [("choices", .arr [])]) (.arr [])
    (by rfl) (by decide) (by decide) (by rfl) (Or.inr (Or.inr rfl))

/-! ## The inactivity timer -/

/-- C4, at the boundary: the timer installed at mount for
`lastUserMessageTime = 0` fires at `now = 15000`, so that
`now - lastUserMessageTime = IDLE_WINDOW`, and nothing is appended. -/
theorem timeout_at_idle_window_appends_nothing :
    (15000 : Int) - (mount 0 0).lastUserMessageTime ≥ IDLE_WINDOW ∧
    (mount 0 0).inactivityTimeout = some 15000 ∧
    inactivityCallback (mount 0 0).lastUserMessageTime 15000 = [] ∧
    (step ⟨fun _ => false, true, true⟩ (mount 0 0) (.timeout 15000)).messages = [] := by
  refine ⟨by decide, rfl, rfl, rfl⟩

/-- C4, amended: when the pending inactivity timer fires at `now`, the
transcript gains exactly `proactiveMessage` (role `assistant`, the canned
prompt as content) if `now - lastUserMessageTime > IDLE_WINDOW`, and is
unchanged if `now - lastUserMessageTime ≤ IDLE_WINDOW`. -/
theorem timeout_appends_iff_beyond_idle_window (env : Browser) (st : State)
    (due now : Int) (hpending : st.inactivityTimeout = some due) :
    (now - st.lastUserMessageTime > IDLE_WINDOW →
      (step env st (.timeout now)).messages = st.messages ++ [proactiveMessage]) ∧
    (now - st.lastUserMessageTime ≤ IDLE_WINDOW →
      (step env st (.timeout now)).messages = st.messages) ∧
    proactiveMessage.get "role" = .str "assistant" ∧
    proactiveMessage.get "content" =
      .str "Hi there! What's your favorite animal today? Or would you like to sing a song with me?" := by
  refine ⟨?_, ?_, rfl, rfl⟩
  · intro hidle
    have hgt : now - st.lastUserMessageTime > 15000 := hidle
    rw [step_messages]
    simp [eventEffects, hpending, inactivityCallback, hgt, appendedBy]
  · intro hactive
    have hle : ¬ (now - st.lastUserMessageTime > 15000) := not_lt.mpr hactive
    rw [step_messages]
    simp only [eventEffects, hpending, inactivityCallback, hle, ↓reduceIte, appendedBy,
      List.filterMap_nil, List.append_nil]

/-- Witness of C4, amended: the timer installed at mount fires at `15001`. -/
theorem timeout_appends_iff_beyond_idle_window_witness :
    ((15001 : Int) - (mount 0 0).lastUserMessageTime > IDLE_WINDOW →
      (step ⟨fun _ => false, true, true⟩ (mount 0 0) (.timeout 15001)).messages
        = (mount 0 0).messages ++ [proactiveMessage]) ∧
    ((15001 : Int) - (mount 0 0).lastUserMessageTime ≤ IDLE_WINDOW →
      (step ⟨fun _ => false, true, true⟩ (mount 0 0) (.timeout 15001)).messages = (mount 0 0).messages) ∧
    proactiveMessage.get "role" = .str "assistant" ∧
    proactiveMessage.get "content" =
      .str "Hi there! What's your favorite animal today? Or would you like to sing a song with me?" :=
  timeout_appends_iff_beyond_idle_window ⟨fun _ => false, true, true⟩ (mount 0 0) 15000 15001 rfl

/-- C5: whenever the inactivity timer fires, in any state and at any time,
whether or not the callback appends the proactive message, no timer is pending
afterwards: the hook depends on `lastUserMessageTime` alone, which the callback
does not write, so it is not run again. For the component mounted at time `0`
the timer is pending at first, due at `15000`; after it fired at `15001` the
monitor is idle, and a later expiry finds nothing to fire. -/
theorem timeout_leaves_monitor_idle (env : Browser) :
    (∀ (st : State) (now : Int), (step env st (.timeout now)).monitor = .Idle) ∧
    (mount 0 0).monitor = .Armed 15000 ∧
    (step env (mount 0 0) (.timeout 15001)).messages = [proactiveMessage] ∧
    (step env (mount 0 0) (.timeout 15001)).monitor = .Idle ∧
    (step env (mount 0 0) (.timeout 15000)).monitor = .Idle ∧
    (run env (mount 0 0) [.timeout 15001, .timeout 30002]).messages
      = [proactiveMessage] := by
  refine ⟨?_, rfl, rfl, rfl, rfl, rfl⟩
  intro st now
  have hsame : (applyEffects (consumeTimer st (.timeout now))
      (eventEffects env st (.timeout now))).lastUserMessageTime
        = (consumeTimer st (.timeout now)).lastUserMessageTime := by
    rw [applyEffects_lastUserMessageTime]
    have h : timesSetBy (eventEffects env st (.timeout now)) = [] := by
      simp only [eventEffects]
      cases st.inactivityTimeout with
      | none => simp [timesSetBy]
      | some due => exact inactivityCallback_timesSet _ _
    rw [h]
    rfl
  have hnone : (applyEffects (consumeTimer st (.timeout now))
      (eventEffects env st (.timeout now))).inactivityTimeout = none := by
    generalize eventEffects env st (.timeout now) = effects
    have hgen : ∀ (effs : List Effect) (s : State), s.inactivityTimeout = none →
        (applyEffects s effs).inactivityTimeout = none := by
      intro effs
      induction effs with
      | nil => intro s hs; exact hs
      | cons e rest ih =>
        intro s hs
        have hstep : applyEffects s (e :: rest) = applyEffects (applyEffect s e) rest := rfl
        rw [hstep]
        apply ih
        cases e <;> exact hs
    exact hgen effects _ rfl
  simp only [step, commitInactivityEffect, hsame, ↓reduceIte, State.monitor, hnone]

/-! ## The transcript and the time of the last user message -/

/-- A call with the non-blank text `s` appends one message with sender
`user`, the one carrying `s`, and writes `now` once. -/
theorem sendMessage_valid_turn (env : Browser) (messages : List JsObject) (inputText : String)
    (voiceInput : JsVal) (now : Int) (net : FetchResult) (s : String)
    (htext : messageTextOf voiceInput inputText = .str s) (hvalid : jsTrim s ≠ "") :
    (appendedBy (sendMessage env messages inputText voiceInput now net).effects).filter
        (fun m => strictEqStr (m.get "sender") "user") = [userMessageOf s] ∧
    timesSetBy (sendMessage env messages inputText voiceInput now net).effects = [now] := by
  rw [sendMessage_effects_of_valid env messages inputText voiceInput now net s htext hvalid]
  constructor
  · rw [appendedBy_append, List.filter_append, guardedEffects_no_user]
    have huser : strictEqStr (JsObject.get (userMessageOf s) "sender") "user" = true := by
      simp [userMessageOf, JsObject.get, lookupProp, strictEqStr]
    simp [appendedBy, List.filter, huser]
  · rw [timesSetBy_append, guardedEffects_timesSet]
    simp [timesSetBy]

/-- C9: a click on the Send button with a non-blank `inputText`, and a spoken
turn with a non-blank transcript, append one message with sender `user`,
carrying that text, write `now` to `lastUserMessageTime` and leave it at `now`;
a click with a blank `inputText` performs no effect at all (no append, no
request) and leaves the state as it was; a spoken turn with a blank transcript
only stores the transcript in `inputText`; a timer expiry leaves
`lastUserMessageTime` as it was; the component is constructed with
`lastUserMessageTime` at the construction time; and after any run of events
`lastUserMessageTime` is the time of the last event that appended a user
message, or, when there was none, its initial value, which from construction
is the construction time. -/
theorem lastUserMessageTime_tracks_user_turns (env : Browser) :
    (∀ (st : State) (now : Int) (net : FetchResult), jsTrim st.inputText ≠ "" →
      (appendedBy (eventEffects env st (.click now net))).filter
          (fun m => strictEqStr (m.get "sender") "user") = [userMessageOf st.inputText] ∧
        (userMessageOf st.inputText).get "text" = .str st.inputText ∧
        timesSetBy (eventEffects env st (.click now net)) = [now] ∧
        (step env st (.click now net)).lastUserMessageTime = now) ∧
    (∀ (st : State) (transcript : String) (now : Int) (net : FetchResult),
      jsTrim transcript ≠ "" →
      (appendedBy (eventEffects env st (.voice transcript now net))).filter
          (fun m => strictEqStr (m.get "sender") "user") = [userMessageOf transcript] ∧
        (userMessageOf transcript).get "text" = .str transcript ∧
        timesSetBy (eventEffects env st (.voice transcript now net)) = [now] ∧
        (step env st (.voice transcript now net)).lastUserMessageTime = now) ∧
    (∀ (st : State) (now : Int) (net : FetchResult), jsTrim st.inputText = "" →
      eventEffects env st (.click now net) = [] ∧
        step env st (.click now net) = st) ∧
    (∀ (st : State) (transcript : String) (now : Int) (net : FetchResult),
      jsTrim transcript = "" →
      eventEffects env st (.voice transcript now net) = [.setInputText transcript] ∧
        (step env st (.voice transcript now net)).messages = st.messages ∧
        (step env st (.voice transcript now net)).lastUserMessageTime
          = st.lastUserMessageTime) ∧
    (∀ (st : State) (now : Int),
      (step env st (.timeout now)).lastUserMessageTime = st.lastUserMessageTime) ∧
    (∀ t0 t1 : Int, (mount t0 t1).lastUserMessageTime = t0) ∧
    (∀ (st : State) (evs : List Event),
      (run env st evs).lastUserMessageTime =
        ((userTurnTimes env st evs).getLast?).getD st.lastUserMessageTime) ∧
    (∀ (t0 t1 : Int) (evs : List Event),
      (run env (mount t0 t1) evs).lastUserMessageTime =
        ((userTurnTimes env (mount t0 t1) evs).getLast?).getD t0) := by
  refine ⟨?_, ?_, ?_, ?_, ?_, ?_, ?_, ?_⟩
  · intro st now net hvalid
    obtain ⟨huser, htimes⟩ := sendMessage_valid_turn env st.messages st.inputText .undefined
      now net st.inputText (messageTextOf_undefined st.inputText) hvalid
    have htimes2 : timesSetBy (eventEffects env st (.click now net)) = [now] := htimes
    refine ⟨huser, ?_, htimes2, ?_⟩
    · simp [userMessageOf, JsObject.get, lookupProp]
    · rw [step_lastUserMessageTime, htimes2]
      simp
  · intro st transcript now net hvalid
    obtain ⟨huser, htimes⟩ := sendMessage_valid_turn env [] "" (.str transcript)
      now net transcript (messageTextOf_str transcript) hvalid
    have htimes2 : timesSetBy (eventEffects env st (.voice transcript now net)) = [now] := by
      simp only [eventEffects]
      rw [← htimes]
      simp [timesSetBy]
    refine ⟨?_, ?_, htimes2, ?_⟩
    · simp only [eventEffects]
      rw [← huser]
      simp [appendedBy]
    · simp [userMessageOf, JsObject.get, lookupProp]
    · rw [step_lastUserMessageTime, htimes2]
      simp
  · intro st now net hblank
    have heff : eventEffects env st (.click now net) = [] := by
      simp only [eventEffects]
      apply sendMessage_effects_of_blank
      intro s hs
      rw [messageTextOf_undefined] at hs
      cases hs
      exact hblank
    refine ⟨heff, ?_⟩
    simp [step, heff, consumeTimer, applyEffects, commitInactivityEffect]
  · intro st transcript now net hblank
    have hsend : (sendMessage env [] "" (.str transcript) now net).effects = [] := by
      apply sendMessage_effects_of_blank
      intro s hs
      rw [messageTextOf_str] at hs
      cases hs
      exact hblank
    have heff : eventEffects env st (.voice transcript now net)
        = [.setInputText transcript] := by
      simp only [eventEffects, hsend]
    refine ⟨heff, ?_, ?_⟩
    · rw [step_messages, heff]
      simp [appendedBy]
    · rw [step_lastUserMessageTime, heff]
      simp [timesSetBy]
  · intro st now
    rw [step_lastUserMessageTime]
    have h : timesSetBy (eventEffects env st (.timeout now)) = [] := by
      simp only [eventEffects]
      cases st.inactivityTimeout with
      | none => simp [timesSetBy]
      | some due => exact inactivityCallback_timesSet _ _
    rw [h]
    simp
  · intro t0 t1
    rfl
  · intro st evs
    exact run_lastUserMessageTime env evs st
  · intro t0 t1 evs
    exact run_lastUserMessageTime env evs (mount t0 t1)

/-- Witness of C9: from the component constructed at time `500`, the timer
firing alone leaves `500`; then the text `hi` sent by the button at `1000`, a
whitespace-only text sent at `2000`, the text `yes` spoken at `3000`, a blank
transcript at `4000` and the timer firing at `19000` leave `3000`; the user
messages carry `hi` and `yes`. -/
theorem lastUserMessageTime_tracks_user_turns_witness :
    (run ⟨fun _ => false, true, true⟩ (mount 500 501) [.timeout 15600]).lastUserMessageTime
      = 500 ∧
    (run ⟨fun _ => false, true, true⟩ (mount 500 501)
      [.input "hi", .click 1000 (.rejected ⟨"Failed to fetch"⟩), .input "  ",
       .click 2000 (.rejected ⟨"Failed to fetch"⟩),
       .voice "yes" 3000 (.rejected ⟨"Failed to fetch"⟩),
       .voice " " 4000 (.rejected ⟨"Failed to fetch"⟩),
       .timeout 19000]).lastUserMessageTime = 3000 ∧
    (jsTrim "yes" ≠ "" →
      (appendedBy (eventEffects ⟨fun _ => false, true, true⟩ (mount 500 501)
          (.voice "yes" 3000 (.rejected ⟨"Failed to fetch"⟩)))).filter
          (fun m => strictEqStr (m.get "sender") "user") = [userMessageOf "yes"] ∧
        (userMessageOf "yes").get "text" = .str "yes" ∧
        timesSetBy (eventEffects ⟨fun _ => false, true, true⟩ (mount 500 501)
          (.voice "yes" 3000 (.rejected ⟨"Failed to fetch"⟩))) = [3000] ∧
        (step ⟨fun _ => false, true, true⟩ (mount 500 501)
          (.voice "yes" 3000 (.rejected ⟨"Failed to fetch"⟩))).lastUserMessageTime = 3000) ∧
    jsTrim "yes" ≠ "" :=
  ⟨((lastUserMessageTime_tracks_user_turns ⟨fun _ => false, true, true⟩).2.2.2.2.2.2.2
      500 501 [.timeout 15600]).trans rfl,
   ((lastUserMessageTime_tracks_user_turns ⟨fun _ => false, true, true⟩).2.2.2.2.2.2.2
      500 501
      [.input "hi", .click 1000 (.rejected ⟨"Failed to fetch"⟩), .input "  ",
       .click 2000 (.rejected ⟨"Failed to fetch"⟩),
       .voice "yes" 3000 (.rejected ⟨"Failed to fetch"⟩),
       .voice " " 4000 (.rejected ⟨"Failed to fetch"⟩),
       .timeout 19000]).trans rfl,
   (lastUserMessageTime_tracks_user_turns ⟨fun _ => false, true, true⟩).2.1
      (mount 500 501) "yes" 3000 (.rejected ⟨"Failed to fetch"⟩),
   by decide⟩

/-- C10: the only effect that changes the transcript is `setMessages`, and it
puts exactly one message at the end; every event leaves the transcript it
found as the initial part of the new one, followed by the messages the event
appended; after any run the old transcript is an initial part of the new one,
every old entry at its old place. -/
theorem transcript_append_only (env : Browser) :
    (∀ (st : State) (e : Effect),
      (applyEffect st e).messages = st.messages ∨
        ∃ m, e = .setMessages m ∧ (applyEffect st e).messages = st.messages ++ [m]) ∧
    (∀ (st : State) (m : JsObject),
      (applyEffect st (.setMessages m)).messages = st.messages ++ [m]) ∧
    (∀ (st : State) (ev : Event),
      (step env st ev).messages =
        st.messages ++ appendedBy (eventEffects env st ev)) ∧
    (∀ (st : State) (evs : List Event),
      ∃ added : List JsObject, (run env st evs).messages = st.messages ++ added) ∧
    (∀ (st : State) (evs : List Event) (i : Nat) (m : JsObject),
      st.messages[i]? = some m → (run env st evs).messages[i]? = some m) := by
  refine ⟨?_, ?_, ?_, ?_, ?_⟩
  · intro st e
    cases e with
    | setMessages m => exact Or.inr ⟨m, rfl, rfl⟩
    | setInputText v => exact Or.inl rfl
    | setLastUserMessageTime t => exact Or.inl rfl
    | fetch body => exact Or.inl rfl
    | speak text => exact Or.inl rfl
  · intro st m
    rfl
  · intro st ev
    exact step_messages env st ev
  · intro st evs
    exact run_messages env evs st
  · intro st evs i m hm
    obtain ⟨added, hadded⟩ := run_messages env evs st
    have hi : i < st.messages.length := by
      by_contra hge
      rw [List.getElem?_eq_none (Nat.le_of_not_lt hge)] at hm
      exact Option.noConfusion hm
    rw [hadded, List.getElem?_append_left hi]
    exact hm

/-- Witness of C10: a user turn answered by a reply, then the proactive
message: the first entry is still the user message. -/
theorem transcript_append_only_witness :
    (run ⟨fun _ => false, true, true⟩
      (step ⟨fun _ => false, true, true⟩ (mount 0 0)
        (.voice "hi" 1000 (.rejected ⟨"Failed to fetch"⟩)))
      [.timeout 16001]).messages[0]? = some (userMessageOf "hi") :=
  (transcript_append_only ⟨fun _ => false, true, true⟩).2.2.2.2
    (step ⟨fun _ => false, true, true⟩ (mount 0 0) (.voice "hi" 1000 (.rejected ⟨"Failed to fetch"⟩)))
    [.timeout 16001] 0 (userMessageOf "hi") rfl

end TeddyAI
